import Mathlib

/-!
Shallow embedding of the PortaPack radio front-end controller
(`src/firmware/application/radio.cpp`).

The controller orchestrates five hardware leaves (first-mixer stage,
second-IF stage, RF path, baseband codec, baseband CPLD) and owns three
pieces of state (`direction`, `mixer_invert`, `baseband_invert`).  We model
the observable hardware/controller state as a record `RadioState` and each
public operation as a function from state to state, additionally emitting a
trace (`List Event`) of leaf writes in the order the source performs them.

External collaborators not present in the source tree (the tuning planner
`tuning::config::create` and the success result of the second-IF stage's
`set_frequency`) are abstracted into an `Env` parameter.
-/

namespace Radio

/-- `rf::Direction` from `rf_path.hpp` (consumed by `radio.cpp`). -/
inductive Direction
  | Receive
  | Transmit
deriving DecidableEq, Repr

/-- `max283x::Mode` values used by `radio.cpp`. -/
inductive Max283xMode
  | Receive
  | Transmit
  | Standby
deriving DecidableEq, Repr

/-- `max5864::Mode` values used by `radio.cpp`. -/
inductive Max5864Mode
  | Receive
  | Transmit
  | Shutdown
deriving DecidableEq, Repr

/-- Modelled from the spec: the `rf_path_band` enum of the tuning plan
("RF path / band: the switched filter/antenna route selected for a given
frequency range"); its concrete values are external to `radio.cpp`. -/
inductive Band
  | low
  | mid
  | high
deriving DecidableEq, Repr

/-- Modelled from the spec: the TuningPlan produced by the external Tuning
Planner — "{valid: bool, first_lo_frequency: optional positive integer
(0/absent = stage not needed), second_lo_frequency: positive integer,
rf_path_band: enum, mixer_invert: bool}". -/
structure TuningConfig where
  valid : Bool
  first_lo_frequency : Nat
  second_lo_frequency : Nat
  rf_path_band : Band
  mixer_invert : Bool
deriving DecidableEq, Repr

/-- One leaf-stage write performed by the controller, in source order. -/
inductive Event
  | firstIfDisable
  | firstIfSetFrequency (f : Nat)
  | firstIfEnable
  | secondIfSetFrequency (f : Nat) (ok : Bool)
  | secondIfSetMode (m : Max283xMode)
  | secondIfSetLnaGain (db : Int)
  | secondIfSetVgaGain (db : Int)
  | secondIfSetTxVgaGain (db : Int)
  | secondIfSetLpfRfBandwidth (bw : Nat)
  | rfPathSetBand (b : Band)
  | rfPathSetDirection (d : Direction)
  | rfPathSetRfAmp (power : Bool)
  | codecSetMode (m : Max5864Mode)
  | cpldSetInvert (b : Bool)
  | antPwrGpioWrite (v : Nat)
  | clockSetSamplingFrequency (r : Nat)
deriving DecidableEq, Repr

/-- Observable state of the controller and the five leaf stages. -/
structure RadioState where
  firstIfEnabled : Bool
  firstIfFrequency : Nat
  secondIfFrequency : Nat
  secondIfMode : Max283xMode
  secondIfLnaGain : Int
  secondIfVgaGain : Int
  secondIfTxVgaGain : Int
  secondIfLpfRfBandwidth : Nat
  rfPathBand : Band
  rfPathDirection : Direction
  rfPathAmp : Bool
  basebandCodecMode : Max5864Mode
  basebandRate : Nat
  antennaBias : Bool
  direction : Direction
  mixer_invert : Bool
  baseband_invert : Bool
  cpldInvert : Bool
deriving DecidableEq, Repr

/-- Modelled from the spec: the two external collaborators `radio.cpp`
depends on that are not in the source tree — the Tuning Planner ("pure
function mapping a target frequency to a plan ... or unsupported") and the
boolean result of the Second IF Stage's `set_frequency` ("capture its own
success/failure result"), taken to be a pure function of the requested
second-LO frequency. -/
structure Env where
  create : Nat → TuningConfig
  secondIfSetFrequencyOk : Nat → Bool

/-- `radio::Configuration` as consumed by `configure` in `radio.cpp`. -/
structure Configuration where
  tuning_frequency : Nat
  rf_amp : Bool
  lna_gain : Int
  vga_gain : Int
  baseband_rate : Nat
  baseband_filter_bandwidth : Nat
  direction : Direction
deriving DecidableEq, Repr

/-- `radio::set_direction` from `radio.cpp`: stores the direction, derives
`baseband_invert = (direction == Receive)`, writes the CPLD invert bit
`mixer_invert ^ baseband_invert`, sets the second-IF mode, the RF-path
direction, and the codec mode. -/
def set_direction (s : RadioState) (d : Direction) : RadioState × List Event :=
  let bi := decide (d = Direction.Receive)
  let inv := xor s.mixer_invert bi
  let sifMode := if d = Direction.Transmit then Max283xMode.Transmit else Max283xMode.Receive
  let codecMode := if d = Direction.Transmit then Max5864Mode.Transmit else Max5864Mode.Receive
  ({ s with
      direction := d
      baseband_invert := bi
      cpldInvert := inv
      secondIfMode := sifMode
      rfPathDirection := d
      basebandCodecMode := codecMode },
   [Event.cpldSetInvert inv, Event.secondIfSetMode sifMode,
    Event.rfPathSetDirection d, Event.codecSetMode codecMode])

/-- `radio::set_tuning_frequency` from `radio.cpp`: asks the planner for a
plan; if invalid returns false having done nothing; if valid disables the
first mixer, configures/enables it when `first_lo_frequency` is non-zero,
sets the second-IF frequency (capturing its result), applies the RF-path
band, stores `mixer_invert`, rewrites the CPLD invert bit, and returns the
second-IF result.  Returns (new state, event trace, boolean result). -/
def set_tuning_frequency (env : Env) (s : RadioState) (frequency : Nat) :
    RadioState × List Event × Bool :=
  let cfg := env.create frequency
  if cfg.valid then
    let s1 : RadioState := { s with firstIfEnabled := false }
    let s2 : RadioState :=
      if cfg.first_lo_frequency ≠ 0 then
        { s1 with firstIfFrequency := cfg.first_lo_frequency, firstIfEnabled := true }
      else s1
    let e2 : List Event :=
      if cfg.first_lo_frequency ≠ 0 then
        [Event.firstIfSetFrequency cfg.first_lo_frequency, Event.firstIfEnable]
      else []
    let ok := env.secondIfSetFrequencyOk cfg.second_lo_frequency
    let s3 : RadioState :=
      { s2 with secondIfFrequency := if ok then cfg.second_lo_frequency else s2.secondIfFrequency }
    let inv := xor cfg.mixer_invert s.baseband_invert
    let s4 : RadioState :=
      { s3 with rfPathBand := cfg.rf_path_band, mixer_invert := cfg.mixer_invert, cpldInvert := inv }
    (s4,
     Event.firstIfDisable :: e2 ++
       [Event.secondIfSetFrequency cfg.second_lo_frequency ok,
        Event.rfPathSetBand cfg.rf_path_band,
        Event.cpldSetInvert inv],
     ok)
  else
    (s, [], false)

/-- `radio::set_rf_amp`: pass-through to `rf_path.set_rf_amp`. -/
def set_rf_amp (s : RadioState) (power : Bool) : RadioState × List Event :=
  ({ s with rfPathAmp := power }, [Event.rfPathSetRfAmp power])

/-- `radio::set_lna_gain`: pass-through to `second_if.set_lna_gain`. -/
def set_lna_gain (s : RadioState) (db : Int) : RadioState × List Event :=
  ({ s with secondIfLnaGain := db }, [Event.secondIfSetLnaGain db])

/-- `radio::set_vga_gain`: pass-through to `second_if.set_vga_gain`. -/
def set_vga_gain (s : RadioState) (db : Int) : RadioState × List Event :=
  ({ s with secondIfVgaGain := db }, [Event.secondIfSetVgaGain db])

/-- `radio::set_tx_gain`: pass-through to `second_if.set_tx_vga_gain`. -/
def set_tx_gain (s : RadioState) (db : Int) : RadioState × List Event :=
  ({ s with secondIfTxVgaGain := db }, [Event.secondIfSetTxVgaGain db])

/-- `radio::set_baseband_filter_bandwidth`: pass-through to
`second_if.set_lpf_rf_bandwidth`. -/
def set_baseband_filter_bandwidth (s : RadioState) (bw : Nat) : RadioState × List Event :=
  ({ s with secondIfLpfRfBandwidth := bw }, [Event.secondIfSetLpfRfBandwidth bw])

/-- `radio::set_baseband_rate`: pass-through to
`clock_manager.set_sampling_frequency`. -/
def set_baseband_rate (s : RadioState) (rate : Nat) : RadioState × List Event :=
  ({ s with basebandRate := rate }, [Event.clockSetSamplingFrequency rate])

/-- `radio::set_antenna_bias`: writes the active-low antenna-power GPIO
(0 turns the bias on, 1 turns it off). -/
def set_antenna_bias (s : RadioState) (power : Bool) : RadioState × List Event :=
  ({ s with antennaBias := power }, [Event.antPwrGpioWrite (if power then 0 else 1)])

/-- `radio::disable` from `radio.cpp`: antenna bias off, codec to Shutdown,
second-IF to Standby, first mixer disabled, RF amp off — in source order. -/
def disable (s : RadioState) : RadioState × List Event :=
  let r1 := set_antenna_bias s false
  let s2 : RadioState := { r1.1 with basebandCodecMode := Max5864Mode.Shutdown }
  let s3 : RadioState := { s2 with secondIfMode := Max283xMode.Standby }
  let s4 : RadioState := { s3 with firstIfEnabled := false }
  let r5 := set_rf_amp s4 false
  (r5.1,
   r1.2 ++ [Event.codecSetMode Max5864Mode.Shutdown,
            Event.secondIfSetMode Max283xMode.Standby,
            Event.firstIfDisable] ++ r5.2)

/-- `radio::configure` from `radio.cpp`: applies tuning frequency, RF amp,
LNA gain, VGA gain, baseband rate, filter bandwidth, then direction, in
that fixed source order. -/
def configure (env : Env) (s : RadioState) (c : Configuration) : RadioState × List Event :=
  let r1 := set_tuning_frequency env s c.tuning_frequency
  let r2 := set_rf_amp r1.1 c.rf_amp
  let r3 := set_lna_gain r2.1 c.lna_gain
  let r4 := set_vga_gain r3.1 c.vga_gain
  let r5 := set_baseband_rate r4.1 c.baseband_rate
  let r6 := set_baseband_filter_bandwidth r5.1 c.baseband_filter_bandwidth
  let r7 := set_direction r6.1 c.direction
  (r7.1, r1.2.1 ++ r2.2 ++ r3.2 ++ r4.2 ++ r5.2 ++ r6.2 ++ r7.2)

/-- `radio::enable` from `radio.cpp`: delegates to `configure`. -/
def enable (env : Env) (s : RadioState) (c : Configuration) : RadioState × List Event :=
  configure env s c

/-- A concrete environment used for witness evaluation. -/
def envA : Env where
  create := fun f =>
    { valid := decide (f ≠ 0)
      first_lo_frequency := if 1000 ≤ f then f + 500 else 0
      second_lo_frequency := f + 1
      rf_path_band := Band.mid
      mixer_invert := decide (f % 2 = 0) }
  secondIfSetFrequencyOk := fun f => decide (f ≤ 5000)

/-- A concrete starting state used for witness evaluation. -/
def s0 : RadioState where
  firstIfEnabled := true
  firstIfFrequency := 7
  secondIfFrequency := 9
  secondIfMode := Max283xMode.Receive
  secondIfLnaGain := 8
  secondIfVgaGain := 16
  secondIfTxVgaGain := 20
  secondIfLpfRfBandwidth := 1750000
  rfPathBand := Band.low
  rfPathDirection := Direction.Receive
  rfPathAmp := false
  basebandCodecMode := Max5864Mode.Receive
  basebandRate := 3072000
  antennaBias := false
  direction := Direction.Receive
  mixer_invert := false
  baseband_invert := true
  cpldInvert := true

/-- True exactly on the leaf writes `configure` is claimed never to perform:
a TX VGA gain write or an antenna-bias GPIO write. -/
def isTxGainOrAntennaBiasWrite : Event → Bool
  | Event.secondIfSetTxVgaGain _ => true
  | Event.antPwrGpioWrite _ => true
  | _ => false

/-- C2: for every frequency whose tuning plan is invalid,
`set_tuning_frequency` returns false, performs no leaf write, and leaves the
entire observable state (stage enables/frequencies, band, inversion flags,
polarity bit, direction, all gains) exactly as before the call. -/
theorem C2_invalid_plan_noop (env : Env) (s : RadioState) (f : Nat)
    (hv : (env.create f).valid = false) :
    set_tuning_frequency env s f = (s, [], false) := by
  simp [set_tuning_frequency, hv]

/-- Witness for C2: in the concrete environment, frequency 0 has an invalid
plan and `set_tuning_frequency` is a no-op returning false. -/
theorem C2_invalid_plan_noop_witness :
    (envA.create 0).valid = false ∧ set_tuning_frequency envA s0 0 = (s0, [], false) :=
  ⟨by decide, C2_invalid_plan_noop envA s0 0 (by decide)⟩

/-- C5: after `set_direction d`: `baseband_invert = (d = Receive)`; the
stored `mixer_invert` is unchanged and the written polarity bit equals
`mixer_invert XOR baseband_invert` of the post-state; the second-IF mode is
Transmit iff `d = Transmit`; the RF-path direction is `d`; and the codec
mode is Transmit iff `d = Transmit`. -/
theorem C5_set_direction_effects (s : RadioState) (d : Direction) :
    (set_direction s d).1.baseband_invert = decide (d = Direction.Receive)
    ∧ (set_direction s d).1.mixer_invert = s.mixer_invert
    ∧ (set_direction s d).1.cpldInvert
        = xor (set_direction s d).1.mixer_invert (set_direction s d).1.baseband_invert
    ∧ Event.cpldSetInvert (set_direction s d).1.cpldInvert ∈ (set_direction s d).2
    ∧ (set_direction s d).1.secondIfMode
        = (if d = Direction.Transmit then Max283xMode.Transmit else Max283xMode.Receive)
    ∧ (set_direction s d).1.rfPathDirection = d
    ∧ (set_direction s d).1.basebandCodecMode
        = (if d = Direction.Transmit then Max5864Mode.Transmit else Max5864Mode.Receive)
    ∧ (set_direction s d).1.direction = d := by
  simp [set_direction]

/-- C7: from every prior state, `disable` performs exactly five leaf writes,
in order: antenna bias off (active-low GPIO written to 1), codec to
Shutdown, second-IF to Standby, first mixer disabled, RF amp off — and the
final state reflects all five. -/
theorem C7_disable_order_and_state (s : RadioState) :
    (disable s).2 = [Event.antPwrGpioWrite 1,
      Event.codecSetMode Max5864Mode.Shutdown,
      Event.secondIfSetMode Max283xMode.Standby,
      Event.firstIfDisable,
      Event.rfPathSetRfAmp false]
    ∧ (disable s).1.antennaBias = false
    ∧ (disable s).1.basebandCodecMode = Max5864Mode.Shutdown
    ∧ (disable s).1.secondIfMode = Max283xMode.Standby
    ∧ (disable s).1.firstIfEnabled = false
    ∧ (disable s).1.rfPathAmp = false := by
  simp [disable, set_antenna_bias, set_rf_amp]

/-- C10: `disable` leaves `direction`, `mixer_invert`, `baseband_invert` and
the CPLD polarity bit untouched (its trace contains no CPLD write), so a
later `set_direction` recomputes polarity from the pre-disable
`mixer_invert`. -/
theorem C10_disable_frame (s : RadioState) (d : Direction) :
    (disable s).1.direction = s.direction
    ∧ (disable s).1.mixer_invert = s.mixer_invert
    ∧ (disable s).1.baseband_invert = s.baseband_invert
    ∧ (disable s).1.cpldInvert = s.cpldInvert
    ∧ (∀ b, Event.cpldSetInvert b ∉ (disable s).2)
    ∧ (set_direction (disable s).1 d).1.cpldInvert
        = xor s.mixer_invert (decide (d = Direction.Receive)) := by
  simp [disable, set_antenna_bias, set_rf_amp, set_direction]

/-- C1: every operation that mutates `mixer_invert` or `baseband_invert`
(`set_direction` with any direction; `set_tuning_frequency` with any
frequency whose plan is valid) writes the CPLD invert bit within the same
operation, and the bit written — the post-state `cpldInvert` — equals
`mixer_invert XOR baseband_invert` computed from the post-mutation
values. -/
theorem C1_polarity_invariant (env : Env) (s t : RadioState) (d : Direction) (f : Nat)
    (hv : (env.create f).valid = true) :
    ((set_direction t d).1.cpldInvert
        = xor (set_direction t d).1.mixer_invert (set_direction t d).1.baseband_invert
      ∧ Event.cpldSetInvert (set_direction t d).1.cpldInvert ∈ (set_direction t d).2)
    ∧ ((set_tuning_frequency env s f).1.cpldInvert
        = xor (set_tuning_frequency env s f).1.mixer_invert
            (set_tuning_frequency env s f).1.baseband_invert
      ∧ Event.cpldSetInvert (set_tuning_frequency env s f).1.cpldInvert
          ∈ (set_tuning_frequency env s f).2.1) := by
  refine ⟨⟨?_, ?_⟩, ?_, ?_⟩
  · simp [set_direction]
  · simp [set_direction]
  · by_cases hz : (env.create f).first_lo_frequency = 0 <;>
      simp [set_tuning_frequency, hv, hz]
  · simp [set_tuning_frequency, hv]

/-- Witness for C1 at frequency 2000 (valid plan) and direction Transmit. -/
theorem C1_polarity_invariant_witness :
    (envA.create 2000).valid = true
    ∧ (((set_direction s0 Direction.Transmit).1.cpldInvert
        = xor (set_direction s0 Direction.Transmit).1.mixer_invert
            (set_direction s0 Direction.Transmit).1.baseband_invert
      ∧ Event.cpldSetInvert (set_direction s0 Direction.Transmit).1.cpldInvert
          ∈ (set_direction s0 Direction.Transmit).2)
    ∧ ((set_tuning_frequency envA s0 2000).1.cpldInvert
        = xor (set_tuning_frequency envA s0 2000).1.mixer_invert
            (set_tuning_frequency envA s0 2000).1.baseband_invert
      ∧ Event.cpldSetInvert (set_tuning_frequency envA s0 2000).1.cpldInvert
          ∈ (set_tuning_frequency envA s0 2000).2.1)) :=
  ⟨by decide, C1_polarity_invariant envA s0 s0 Direction.Transmit 2000 (by decide)⟩

/-- C3: for every frequency whose plan is valid, after
`set_tuning_frequency` the first mixer is enabled iff the plan's
`first_lo_frequency` is non-zero; when non-zero the stage's frequency
equals it; the very first leaf write is the unconditional first-mixer
disable; and in the non-zero case the first three writes are disable,
set-frequency, enable, in that order. -/
theorem C3_first_mixer_config (env : Env) (s : RadioState) (f : Nat)
    (hv : (env.create f).valid = true) :
    (set_tuning_frequency env s f).1.firstIfEnabled
        = decide ((env.create f).first_lo_frequency ≠ 0)
    ∧ ((env.create f).first_lo_frequency ≠ 0 →
        (set_tuning_frequency env s f).1.firstIfFrequency
          = (env.create f).first_lo_frequency)
    ∧ (set_tuning_frequency env s f).2.1.head? = some Event.firstIfDisable
    ∧ ((env.create f).first_lo_frequency ≠ 0 →
        (set_tuning_frequency env s f).2.1.take 3
          = [Event.firstIfDisable,
             Event.firstIfSetFrequency (env.create f).first_lo_frequency,
             Event.firstIfEnable]) := by
  by_cases hz : (env.create f).first_lo_frequency = 0 <;>
    simp [set_tuning_frequency, hv, hz]

/-- Witness for C3 at frequency 2000, whose plan has a non-zero first-LO
frequency. -/
theorem C3_first_mixer_config_witness :
    (envA.create 2000).valid = true
    ∧ ((set_tuning_frequency envA s0 2000).1.firstIfEnabled
        = decide ((envA.create 2000).first_lo_frequency ≠ 0)
    ∧ ((envA.create 2000).first_lo_frequency ≠ 0 →
        (set_tuning_frequency envA s0 2000).1.firstIfFrequency
          = (envA.create 2000).first_lo_frequency)
    ∧ (set_tuning_frequency envA s0 2000).2.1.head? = some Event.firstIfDisable
    ∧ ((envA.create 2000).first_lo_frequency ≠ 0 →
        (set_tuning_frequency envA s0 2000).2.1.take 3
          = [Event.firstIfDisable,
             Event.firstIfSetFrequency (envA.create 2000).first_lo_frequency,
             Event.firstIfEnable])) :=
  ⟨by decide, C3_first_mixer_config envA s0 2000 (by decide)⟩

/-- C4: for every frequency whose plan is valid, `set_tuning_frequency`
returns exactly the second-IF stage's frequency-set result; and even when
that result is false, the first-mixer disable/reconfigure, the RF-path band
update, the `mixer_invert` update, and the polarity-bit rewrite have all
still been applied. -/
theorem C4_result_and_partial_effects (env : Env) (s : RadioState) (f : Nat)
    (hv : (env.create f).valid = true) :
    (set_tuning_frequency env s f).2.2
        = env.secondIfSetFrequencyOk (env.create f).second_lo_frequency
    ∧ (set_tuning_frequency env s f).1.firstIfEnabled
        = decide ((env.create f).first_lo_frequency ≠ 0)
    ∧ Event.firstIfDisable ∈ (set_tuning_frequency env s f).2.1
    ∧ (set_tuning_frequency env s f).1.rfPathBand = (env.create f).rf_path_band
    ∧ (set_tuning_frequency env s f).1.mixer_invert = (env.create f).mixer_invert
    ∧ (set_tuning_frequency env s f).1.cpldInvert
        = xor (env.create f).mixer_invert s.baseband_invert
    ∧ Event.cpldSetInvert (xor (env.create f).mixer_invert s.baseband_invert)
        ∈ (set_tuning_frequency env s f).2.1 := by
  by_cases hz : (env.create f).first_lo_frequency = 0 <;>
    simp [set_tuning_frequency, hv, hz]

/-- Witness for C4 at frequency 6000, whose plan is valid but whose
second-LO frequency makes the second-IF set-frequency result false. -/
theorem C4_result_and_partial_effects_witness :
    (envA.create 6000).valid = true
    ∧ ((set_tuning_frequency envA s0 6000).2.2
        = envA.secondIfSetFrequencyOk (envA.create 6000).second_lo_frequency
    ∧ (set_tuning_frequency envA s0 6000).1.firstIfEnabled
        = decide ((envA.create 6000).first_lo_frequency ≠ 0)
    ∧ Event.firstIfDisable ∈ (set_tuning_frequency envA s0 6000).2.1
    ∧ (set_tuning_frequency envA s0 6000).1.rfPathBand = (envA.create 6000).rf_path_band
    ∧ (set_tuning_frequency envA s0 6000).1.mixer_invert = (envA.create 6000).mixer_invert
    ∧ (set_tuning_frequency envA s0 6000).1.cpldInvert
        = xor (envA.create 6000).mixer_invert s0.baseband_invert
    ∧ Event.cpldSetInvert (xor (envA.create 6000).mixer_invert s0.baseband_invert)
        ∈ (set_tuning_frequency envA s0 6000).2.1) :=
  ⟨by decide, C4_result_and_partial_effects envA s0 6000 (by decide)⟩

/-- C6: from every starting state, applying `configure` twice with the same
configuration yields exactly the state reached after applying it once —
idempotence on the whole observable state record. -/
theorem C6_configure_idempotent (env : Env) (s : RadioState) (c : Configuration) :
    (configure env (configure env s c).1 c).1 = (configure env s c).1 := by
  cases hv : (env.create c.tuning_frequency).valid <;>
    by_cases hz : (env.create c.tuning_frequency).first_lo_frequency = 0 <;>
      cases hok : env.secondIfSetFrequencyOk (env.create c.tuning_frequency).second_lo_frequency <;>
        simp [configure, set_tuning_frequency, set_rf_amp, set_lna_gain, set_vga_gain,
          set_baseband_rate, set_baseband_filter_bandwidth, set_direction, hv, hz, hok]

/-- C8: `enable` produces exactly the same final state and side-effect
trace as `configure`; and the `configure` trace is the tuning trace, then
the RF-amp, LNA-gain, VGA-gain, baseband-rate and filter-bandwidth writes,
then the `set_direction` writes — direction strictly last. -/
theorem C8_enable_is_configure_ordered (env : Env) (s : RadioState) (c : Configuration) :
    enable env s c = configure env s c
    ∧ (configure env s c).2 =
        (set_tuning_frequency env s c.tuning_frequency).2.1
        ++ [Event.rfPathSetRfAmp c.rf_amp,
            Event.secondIfSetLnaGain c.lna_gain,
            Event.secondIfSetVgaGain c.vga_gain,
            Event.clockSetSamplingFrequency c.baseband_rate,
            Event.secondIfSetLpfRfBandwidth c.baseband_filter_bandwidth]
        ++ (set_direction (set_tuning_frequency env s c.tuning_frequency).1 c.direction).2 := by
  refine ⟨rfl, ?_⟩
  simp [configure, set_rf_amp, set_lna_gain, set_vga_gain, set_baseband_rate,
    set_baseband_filter_bandwidth, set_direction]

/-- C9: `configure` leaves the TX VGA gain and the antenna-bias state
unchanged, and its trace contains no TX-VGA-gain or antenna-bias write. -/
theorem C9_configure_frame (env : Env) (s : RadioState) (c : Configuration) :
    (configure env s c).1.secondIfTxVgaGain = s.secondIfTxVgaGain
    ∧ (configure env s c).1.antennaBias = s.antennaBias
    ∧ ((configure env s c).2.all fun e => !(isTxGainOrAntennaBiasWrite e)) = true := by
  cases hv : (env.create c.tuning_frequency).valid <;>
    by_cases hz : (env.create c.tuning_frequency).first_lo_frequency = 0 <;>
      simp [configure, set_tuning_frequency, set_rf_amp, set_lna_gain, set_vga_gain,
        set_baseband_rate, set_baseband_filter_bandwidth, set_direction,
        isTxGainOrAntennaBiasWrite, hv, hz]

end Radio
